import Mathlib

/-!
Shallow embedding of the protocol core of switcher-rust: the
discovery-packet decoder (src/device.rs), the packet codec and CRC
signer plus the session-controller policies (src/control.rs), and the
discovery listener dedup loop (src/discovery.rs).

Bytes are modelled as Nat (values < 256 where relevant), hex text as
List Char.  Fallible Rust code returns Option/Except; the Rust panics
reachable through the unchecked unwraps in sign_packet are modelled as
none (resp. a dedicated panicked outcome).
-/

namespace Switcher

/-- Device power state, mirroring enum DeviceState in src/device.rs. -/
inductive DeviceState
  | On
  | Off
  | Unknown
deriving DecidableEq

/-- Status of a live device, mirroring struct DeviceStatus in src/device.rs.
power_consumption is the u16 wattage. -/
structure DeviceStatus where
  state : DeviceState
  power_consumption : Nat
deriving DecidableEq

/-- A decoded discovery record, mirroring struct SwitcherDevice in
src/device.rs.  Textual fields built only by hex-encoding are kept as the
hex characters; ip_address is kept as its four octets in display order and
mac_address as its six bytes in display order (the Rust code renders these
with dotted/colon formatting, which no claim inspects); name is kept as the
raw bytes preceding the first NUL (the Rust code additionally runs a lossy
UTF-8 decode on them, which no claim inspects). -/
structure SwitcherDevice where
  device_id : List Char
  device_key : List Char
  ip_address : List Nat
  mac_address : List Nat
  name : List Nat
  device_type : List Char
  state : DeviceState
  power_consumption : Nat
deriving DecidableEq

instance : Inhabited SwitcherDevice :=
  ⟨{ device_id := [], device_key := [], ip_address := [], mac_address := [], name := [],
     device_type := [], state := DeviceState.Unknown, power_consumption := 0 }⟩

/-! ### Hex primitives (the hex crate: hex::encode / hex::decode,
and u32::from_str_radix(_, 16)) -/

/-- Lowercase hex digit of a nibble value: digits 0-9 land on codes
48..57 and values 10-15 on the letter codes 97..102, exactly the
"0123456789abcdef" table of hex::encode. -/
def natToHexDigit (d : Nat) : Char :=
  Char.ofNat (if d < 10 then 48 + d else 87 + d)

/-- Value of one hex digit character, over its code point, mirroring the
byte ranges of the hex crate's digit decoder (and from_str_radix): codes
48..57 are the decimal digits, 97..102 lowercase a-f, 65..70 uppercase
A-F; everything else is rejected. -/
def hexDigitVal (c : Char) : Option Nat :=
  if 48 ≤ c.toNat ∧ c.toNat ≤ 57 then some (c.toNat - 48)
  else if 97 ≤ c.toNat ∧ c.toNat ≤ 102 then some (c.toNat - 87)
  else if 65 ≤ c.toNat ∧ c.toNat ≤ 70 then some (c.toNat - 55)
  else none

/-- Two lowercase hex characters of one byte (hex::encode of a single u8:
high nibble then low nibble). -/
def byteToHex (b : Nat) : List Char :=
  [natToHexDigit (b / 16), natToHexDigit (b % 16)]

/-- hex::encode of a byte sequence. -/
def hexEncode (bs : List Nat) : List Char :=
  (bs.map byteToHex).flatten

/-- hex::decode: fails (none) on an odd-length input or any non-hex
character, otherwise yields one byte per character pair. -/
def hexDecode : List Char → Option (List Nat)
  | [] => some []
  | [_] => none
  | c1 :: c2 :: rest =>
    match hexDigitVal c1 with
    | none => none
    | some h =>
      match hexDigitVal c2 with
      | none => none
      | some l =>
        match hexDecode rest with
        | none => none
        | some bs => some ((16 * h + l) :: bs)

/-- Left-to-right accumulation of from_str_radix(_, 16). -/
def hexCharsVal : Nat → List Char → Option Nat
  | acc, [] => some acc
  | acc, c :: cs =>
    match hexDigitVal c with
    | none => none
    | some d => hexCharsVal (16 * acc + d) cs

/-- u32::from_str_radix(s, 16) / u16::from_str_radix(s, 16): fails on an
empty string or a non-hex character.  (The overflow failure of
from_str_radix is unreachable in this program: every call site passes at
most 8 hex characters to the u32 parse and at most 4 to the u16 parse.) -/
def hexStrToNat? (s : List Char) : Option Nat :=
  if s = [] then none else hexCharsVal 0 s

/-- Rust range slice l[i..j], as a list operation. -/
def slice (l : List α) (i j : Nat) : List α :=
  (l.drop i).take (j - i)

/-! ### CRC-16 (the crc crate, CRC_16_XMODEM with digest_with_initial)

CRC_16_XMODEM is the width-16, polynomial 0x1021, unreflected,
xorout-0 CRC; digest_with_initial(0x1021) starts the register at
0x1021 instead of the algorithm default 0x0000.  We embed its semantics
as the standard MSB-first bitwise computation. -/

/-- One shift step of the MSB-first CRC-16 with polynomial 0x1021. -/
def crc16Round (r : Nat) : Nat :=
  if r.testBit 15 then ((r <<< 1) ^^^ 0x1021) % 65536 else (r <<< 1) % 65536

/-- Feed one byte into the CRC register. -/
def crc16Byte (r b : Nat) : Nat :=
  crc16Round^[8] (r ^^^ (b <<< 8))

/-- CRC-16 of a byte sequence starting from register value init;
finalize applies no reflection and xorout 0, so the register is the
result. -/
def crc16 (init : Nat) (bs : List Nat) : Nat :=
  bs.foldl crc16Byte init

/-! ### Packet signing (SwitcherController::sign_packet, src/control.rs
lines 342-371) -/

/-- Big-endian rendering of the 16-bit CRC as the low 4 of the 8 hex
characters of (crc as u32).to_be_bytes(), then the byte swap
hex[6..8] ++ hex[4..6] performed by sign_packet. -/
def crcSwappedHex (crc : Nat) : List Char :=
  let hex_crc := hexEncode [crc / 16777216 % 256, crc / 65536 % 256, crc / 256 % 256, crc % 256]
  slice hex_crc 6 8 ++ slice hex_crc 4 6

/-- The key_hex local of sign_packet: the swapped packet-CRC hex followed
by "30" repeated 32 times. -/
def signKeyHex (packet_crc : Nat) : List Char :=
  crcSwappedHex packet_crc ++ (List.replicate 32 ['3', '0']).flatten

/-- sign_packet (src/control.rs): hex-decode the payload (the unchecked
unwrap there means an invalid payload panics, modelled as none), CRC it
with initial register 0x1021, byte-swap the rendered CRC, CRC the key
buffer built from that swapped segment and 32 ASCII zero bytes, byte-swap
that too, and append both 2-character swapped segments to the payload. -/
def sign_packet (hex_packet : List Char) : Option (List Char) :=
  match hexDecode hex_packet with
  | none => none
  | some binary_packet =>
    let packet_crc := crc16 0x1021 binary_packet
    match hexDecode (signKeyHex packet_crc) with
    | none => none
    | some binary_key =>
      let key_crc := crc16 0x1021 binary_key
      some (hex_packet ++ crcSwappedHex packet_crc ++ crcSwappedHex key_crc)

/-! ### Packet builders (src/control.rs lines 272-340).  The Rust
format! interpolations become list concatenations; "0".repeat(72) is 72
ASCII zero characters. -/

/-- build_login_packet: fixed hex text around the 8-character timestamp. -/
def build_login_packet (timestamp : List Char) : List Char :=
  "fef052000232a10000000000340001000000000000000000".data ++ timestamp ++
    "00000000000000000000f0fe00".data ++ List.replicate 72 '0' ++ "00".data

/-- build_control_packet: session id, timestamp, device id, the single
ASCII command digit, and the trailing padding, in the order of the Rust
format string. -/
def build_control_packet (session_id timestamp device_id : List Char) (command : Char) :
    List Char :=
  "fef05d0002320102".data ++ session_id ++ "340001000000000000000000".data ++ timestamp ++
    "00000000000000000000f0fe".data ++ device_id ++ List.replicate 72 '0' ++
    "000106000".data ++ [command] ++ "00".data ++ "00000000".data

/-- build_get_state_packet: session id, timestamp and device id. -/
def build_get_state_packet (session_id timestamp device_id : List Char) : List Char :=
  "fef0300002320103".data ++ session_id ++ "340001000000000000000000".data ++ timestamp ++
    "00000000000000000000f0fe".data ++ device_id ++ "00".data

/-- The error message of string_to_hexadecimal_device_name for an
out-of-range length. -/
def invalidNameLengthMsg (length : Nat) : List Char :=
  "Device name length must be between 2 and 32 characters, got ".data ++ (Nat.repr length).data

/-- string_to_hexadecimal_device_name (src/control.rs lines 319-340): the
name is its UTF-8 bytes (str::len and str::as_bytes both act on those);
reject byte lengths outside 2..=32, otherwise hex-encode and right-pad
with "00" pairs up to 64 hex characters. -/
def string_to_hexadecimal_device_name (name : List Nat) : Except (List Char) (List Char) :=
  let length := name.length
  if length < 2 ∨ length > 32 then
    .error (invalidNameLengthMsg length)
  else
    let hex_name := hexEncode name
    let zeros_needed := 64 - hex_name.length
    .ok (hex_name ++ (List.replicate (zeros_needed / 2) ['0', '0']).flatten)

/-- build_set_name_packet: validates and encodes the name, then assembles
the rename payload in the order of the Rust format string. -/
def build_set_name_packet (session_id timestamp device_id : List Char) (new_name : List Nat) :
    Except (List Char) (List Char) :=
  match string_to_hexadecimal_device_name new_name with
  | .error e => .error e
  | .ok name_hex =>
    .ok ("fef0740002320202".data ++ session_id ++ "340001000000000000000000".data ++ timestamp ++
      "00000000000000000000f0fe".data ++ device_id ++ List.replicate 72 '0' ++
      "00".data ++ name_hex)

/-! ### Session controller, modelled as trace-producing functions.

Network interactions are recorded as events; the data a real network
would supply (login and command responses, polled states) is passed in as
an explicit behaviour, so each operation is a pure function from the
behaviour to its event trace and outcome. -/

/-- One observable I/O action of a controller operation. -/
inductive IOEvent
  | connect
  | writeHex (packet : List Char)
  | readBytes (len : Nat)
  | sleepMs (ms : Nat)
deriving DecidableEq

/-- Outcome of a controller operation: ok, a reported error (the Rust
error message), or a Rust panic (the unchecked unwrap in sign_packet). -/
inductive OpOutcome
  | ok
  | err (msg : List Char)
  | panicked
deriving DecidableEq

/-- The error message of a login response shorter than
MIN_LOGIN_RESPONSE_LEN = 20 bytes. -/
def loginTooShortMsg : List Char := "Login response too short".data

/-- Outcome of the login exchange. -/
inductive LoginOutcome
  | ok (timestamp : List Char) (session_id : List Char)
  | err (msg : List Char)
  | panicked
deriving DecidableEq

/-- login (src/control.rs lines 242-266) over an already-open stream:
sign and write the login packet, read loginResponse (given as the bytes
the read returns), fail when fewer than 20 bytes came back, otherwise
extract the session id as the hex of response bytes 16..20.  The
timestamp argument stands for current_timestamp_hex(). -/
def login_run (timestamp : List Char) (loginResponse : List Nat) :
    List IOEvent × LoginOutcome :=
  match sign_packet (build_login_packet timestamp) with
  | none => ([], .panicked)
  | some signed =>
    let ev := [IOEvent.writeHex signed, IOEvent.readBytes loginResponse.length]
    if loginResponse.length < 20 then (ev, .err loginTooShortMsg)
    else (ev, .ok timestamp (hexEncode (slice loginResponse 16 20)))

/-- Network behaviour a set_device_name run is exposed to: the bytes the
login read returns and the bytes the rename-command read returns. -/
structure NameNetBehavior where
  loginResponse : List Nat
  nameResponse : List Nat

/-- The error message of a rename response shorter than 20 bytes. -/
def nameNoResponseMsg : List Char := "Device did not respond to name change command".data

/-- set_device_name (src/control.rs lines 110-135): connect, log in,
build and sign the rename packet (name validation happens here, inside
build_set_name_packet), write it, read the confirmation, and sleep the
settle delay.  The event trace records every I/O action in order. -/
def set_device_name_run (timestamp device_id : List Char) (b : NameNetBehavior)
    (new_name : List Nat) : List IOEvent × OpOutcome :=
  let ev0 := [IOEvent.connect]
  match login_run timestamp b.loginResponse with
  | (lev, .panicked) => (ev0 ++ lev, .panicked)
  | (lev, .err e) => (ev0 ++ lev, .err e)
  | (lev, .ok ts sid) =>
    match build_set_name_packet sid ts device_id new_name with
    | .error e => (ev0 ++ lev, .err e)
    | .ok packet =>
      match sign_packet packet with
      | none => (ev0 ++ lev, .panicked)
      | some signed =>
        let ev1 := ev0 ++ lev ++ [IOEvent.writeHex signed, IOEvent.readBytes b.nameResponse.length]
        if b.nameResponse.length < 20 then (ev1, .err nameNoResponseMsg)
        else (ev1 ++ [IOEvent.sleepMs 500], .ok)

/-! ### The turn-on / turn-off convergence policy (src/control.rs lines
32-108), at poll granularity: one event per sent control command, sleep
and status poll.  The behaviour gives the result of the initial
send_control_command and of each successive get_status call. -/

/-- One observable step of a power-command operation. -/
inductive CtrlEvent
  | sendCmd (command : Char)
  | sleepMs (ms : Nat)
  | statusPoll
deriving DecidableEq

/-- Device behaviour a turn_on / turn_off run is exposed to:
sendResult is some error message when send_control_command fails, and
pollResult n is the outcome of the n-th get_status call (0-indexed). -/
structure ControlBehavior where
  sendResult : Option (List Char)
  pollResult : Nat → Except (List Char) DeviceStatus

/-- The turn_on failure message after both polls mismatch. -/
def turnOnNotConfirmedMsg : List Char :=
  "Command sent but device did not turn ON (invalid device ID?)".data

/-- The turn_off failure message after both polls mismatch. -/
def turnOffNotConfirmedMsg : List Char :=
  "Command sent but device did not turn OFF (invalid device ID?)".data

/-- turn_on (src/control.rs lines 32-69): send command "1"; sleep
COMMAND_VERIFY_DELAY_MS = 500; poll status; if not On, sleep
COMMAND_RETRY_DELAY_MS = 1000 and poll once more; if still not On, fail. -/
def turn_on_run (b : ControlBehavior) : List CtrlEvent × OpOutcome :=
  match b.sendResult with
  | some e => ([CtrlEvent.sendCmd '1'], .err e)
  | none =>
    let ev0 := [CtrlEvent.sendCmd '1', CtrlEvent.sleepMs 500, CtrlEvent.statusPoll]
    match b.pollResult 0 with
    | .error e => (ev0, .err e)
    | .ok status =>
      if status.state ≠ DeviceState.On then
        let ev1 := ev0 ++ [CtrlEvent.sleepMs 1000, CtrlEvent.statusPoll]
        match b.pollResult 1 with
        | .error e => (ev1, .err e)
        | .ok status2 =>
          if status2.state ≠ DeviceState.On then (ev1, .err turnOnNotConfirmedMsg)
          else (ev1, .ok)
      else (ev0, .ok)

/-- turn_off (src/control.rs lines 71-108): identical to turn_on with
command "0" and desired state Off. -/
def turn_off_run (b : ControlBehavior) : List CtrlEvent × OpOutcome :=
  match b.sendResult with
  | some e => ([CtrlEvent.sendCmd '0'], .err e)
  | none =>
    let ev0 := [CtrlEvent.sendCmd '0', CtrlEvent.sleepMs 500, CtrlEvent.statusPoll]
    match b.pollResult 0 with
    | .error e => (ev0, .err e)
    | .ok status =>
      if status.state ≠ DeviceState.Off then
        let ev1 := ev0 ++ [CtrlEvent.sleepMs 1000, CtrlEvent.statusPoll]
        match b.pollResult 1 with
        | .error e => (ev1, .err e)
        | .ok status2 =>
          if status2.state ≠ DeviceState.Off then (ev1, .err turnOffNotConfirmedMsg)
          else (ev1, .ok)
      else (ev0, .ok)

/-- Number of status polls in a power-command trace. -/
def pollCount (tr : List CtrlEvent) : Nat :=
  (tr.filter (fun e => e = CtrlEvent.statusPoll)).length

/-- Number of sent control commands in a power-command trace. -/
def sendCount (tr : List CtrlEvent) : Nat :=
  (tr.filter (fun e => match e with | CtrlEvent.sendCmd _ => true | _ => false)).length

/-- The get_status short-response error message. -/
def statusNoDeviceMsg : List Char := "Device did not respond or invalid device ID".data

/-- The response-interpretation part of get_status (src/control.rs lines
180-207), over the bytes the read returned: under 50 bytes is an error;
the state byte sits at DEVICE_STATE_BYTE_POS = 75 (0x01 On, 0x00 Off,
anything else Unknown) and the power u16 little-endian at
POWER_BYTE_POS = 77, each defaulting (Off / 0) when the response is too
short to contain it. -/
def decode_status_response (response : List Nat) : Except (List Char) DeviceStatus :=
  let len := response.length
  if len < 50 then .error statusNoDeviceMsg
  else
    let state :=
      if len > 75 then
        match response.getD 75 0 with
        | 0x01 => DeviceState.On
        | 0x00 => DeviceState.Off
        | _ => DeviceState.Unknown
      else DeviceState.Off
    let power :=
      if len > 78 then response.getD 77 0 + 256 * response.getD 78 0
      else 0
    .ok { state := state, power_consumption := power }

/-! ### Discovery packet decoder (SwitcherDevice::from_discovery_packet,
src/device.rs lines 29-117). -/

/-- The fixed device_type label of the single accepted type code. -/
def deviceTypeLabel : List Char := "Switcher Power Plug".data

/-- from_discovery_packet: reject anything that is not a 165-byte payload
starting 0xFE 0xF0; reject type codes other than 01a8; then read the
remaining fields from the hex re-encoding of the packet at the historical
hex-character offsets.  Bit operations on the parsed u32 are written
arithmetically: x & 0xFF is x % 256 and x >> k is x / 2 ^ k. -/
def from_discovery_packet (data : List Nat) : Option SwitcherDevice :=
  if data.length ≠ 165 ∨ data.take 2 ≠ [0xfe, 0xf0] then none
  else
    let hex_data := hexEncode data
    let device_id := hexEncode (slice data 18 21)
    let device_key := hexEncode (slice data 40 41)
    let name_bytes := slice data 42 74
    let name := name_bytes.take (name_bytes.findIdx (fun b => b == 0))
    let device_type_hex := hexEncode (slice data 74 76)
    if device_type_hex ≠ "01a8".data then none
    else
      if hex_data.length < 160 then none
      else
        let hex_ip := slice hex_data 152 160
        match hexStrToNat? (slice hex_ip 6 8 ++ slice hex_ip 4 6 ++
            slice hex_ip 2 4 ++ slice hex_ip 0 2) with
        | none => none
        | some ip_addr =>
          let ip_address :=
            [ip_addr % 256, ip_addr / 2 ^ 8 % 256, ip_addr / 2 ^ 16 % 256, ip_addr / 2 ^ 24 % 256]
          if hex_data.length < 278 then none
          else
            let hex_mac := slice hex_data 160 172
            match hexStrToNat? (slice hex_mac 0 2), hexStrToNat? (slice hex_mac 2 4),
                hexStrToNat? (slice hex_mac 4 6), hexStrToNat? (slice hex_mac 6 8),
                hexStrToNat? (slice hex_mac 8 10), hexStrToNat? (slice hex_mac 10 12) with
            | some m0, some m1, some m2, some m3, some m4, some m5 =>
              let mac_address := [m0, m1, m2, m3, m4, m5]
              let hex_device_state := slice hex_data 266 268
              let state :=
                if hex_device_state = "01".data then DeviceState.On
                else if hex_device_state = "00".data then DeviceState.Off
                else DeviceState.Off
              let hex_power := slice hex_data 270 278
              let power_consumption :=
                (hexStrToNat? (slice hex_power 2 4 ++ slice hex_power 0 2)).getD 0
              some { device_id := device_id, device_key := device_key,
                     ip_address := ip_address, mac_address := mac_address, name := name,
                     device_type := deviceTypeLabel, state := state,
                     power_consumption := power_consumption }
            | _, _, _, _, _, _ => none

/-! ### Discovery listener dedup (discover_network, src/discovery.rs
lines 201-232).  The receive loop feeds each arriving payload to the
decoder and inserts the record into the shared map only when its
device_id is not yet a key.  We model the payloads received within one
listen window as a list, and the map as an insertion-ordered association
list — insert-if-absent on a HashMap and on such a list accept exactly
the same keys. -/

/-- Lookup by device id in the association-list model of the shared map. -/
def lookupId (l : List (List Char × SwitcherDevice)) (id : List Char) : Option SwitcherDevice :=
  match l with
  | [] => none
  | (k, v) :: rest => if k = id then some v else lookupId rest id

/-- One iteration of the receive loop: parse, then insert-if-absent. -/
def discoverStep (devices : List (List Char × SwitcherDevice)) (payload : List Nat) :
    List (List Char × SwitcherDevice) :=
  match from_discovery_packet payload with
  | none => devices
  | some device =>
    if (lookupId devices device.device_id).isSome then devices
    else devices ++ [(device.device_id, device)]

/-- The record set collected by discover_network over the payloads
received within one listen window. -/
def discover_network_fold (payloads : List (List Nat)) : List (List Char × SwitcherDevice) :=
  payloads.foldl discoverStep []

/-! ### Claim-side companion definitions, written from the words of the
specification for comparison against the code-side functions above. -/

/-- Claim side of C1: the 16-bit CRC rendered as 4 big-endian hex
characters. -/
def crcHexBE (crc : Nat) : List Char :=
  byteToHex (crc / 256 % 256) ++ byteToHex (crc % 256)

/-- Claim side of C1: the byte swap hex[2..4] ++ hex[0..2] of the
big-endian rendering. -/
def crcHexClaimSwapped (crc : Nat) : List Char :=
  slice (crcHexBE crc) 2 4 ++ slice (crcHexBE crc) 0 2

/-- Claim side of C1: the key buffer, the 2-byte swapped packet-CRC
segment followed by 32 bytes of ASCII zero (0x30). -/
def claimKeyBuffer (packet_crc : Nat) : List Nat :=
  [packet_crc % 256, packet_crc / 256 % 256] ++ List.replicate 32 0x30

/-- Claim side of C5: take the 4 bytes at hex offsets 152..160 of the
packet's hex encoding, reverse the group, read the reversed group as a
32-bit value, and emit its bytes in ascending significance. -/
def claimIpOctets (data : List Nat) : Option (List Nat) :=
  match hexDecode (slice (hexEncode data) 152 160) with
  | none => none
  | some group =>
    let v := group.reverse.foldl (fun acc b => 256 * acc + b) 0
    some [v % 256, v / 2 ^ 8 % 256, v / 2 ^ 16 % 256, v / 2 ^ 24 % 256]

/-- Claim side of C10: a device id the claim calls invalid — it contains
a non-hex character or its odd length makes the packet hex odd-length. -/
def BadDeviceId (device_id : List Char) : Prop :=
  (∃ c ∈ device_id, hexDigitVal c = none) ∨ ¬ Even device_id.length

/-! ### Concrete fixtures used to instantiate the theorems below. -/

/-- A well-formed 165-byte discovery broadcast: magic 0xFE 0xF0, device
id bytes 01 02 03, key byte 07, name "ab", type code 01 a8, ip bytes
10.0.0.24, a mac, state byte 0x01 at offset 133, power bytes 100 0. -/
def pktA : List Nat :=
  [0xfe, 0xf0] ++ List.replicate 16 0 ++ [1, 2, 3] ++ List.replicate 19 0 ++ [7, 0] ++
    ([97, 98] ++ List.replicate 30 0) ++ [0x01, 0xa8] ++ [10, 0, 0, 24] ++
    [17, 34, 51, 68, 85, 102] ++ List.replicate 47 0 ++ [1, 0] ++ [100, 0, 0, 0] ++
    List.replicate 26 0

/-- The record pktA decodes to. -/
def devA : SwitcherDevice :=
  { device_id := "010203".data, device_key := "07".data, ip_address := [10, 0, 0, 24],
    mac_address := [17, 34, 51, 68, 85, 102], name := [97, 98],
    device_type := deviceTypeLabel, state := DeviceState.On, power_consumption := 100 }

/-- pktA with its type code overwritten by 00 00. -/
def pktB : List Nat := pktA.take 74 ++ [0, 0] ++ pktA.drop 76

/-- pktA with a different device id (09 08 07) and a different name. -/
def pktC : List Nat :=
  pktA.take 18 ++ [9, 8, 7] ++ (pktA.drop 21).take 21 ++ [99, 100] ++ pktA.drop 44

/-- An 8-character all-zero timestamp. -/
def ts0 : List Char := List.replicate 8 '0'

/-- A 6-character valid hex device id. -/
def dev0 : List Char := "aabbcc".data

/-- A device id containing the non-hex character g. -/
def devBad : List Char := "99999g".data

/-- A network behaviour whose login read returns 20 zero bytes. -/
def b0 : NameNetBehavior := { loginResponse := List.replicate 20 0, nameResponse := [] }

/-- The bytes of the login packet for timestamp ts0 (its hex decode
succeeds, so getD never sees its default). -/
def loginBytes0 : List Nat := (hexDecode (build_login_packet ts0)).getD []

/-- The signed login packet for timestamp ts0. -/
def signedLogin0 : List Char :=
  build_login_packet ts0 ++ crcSwappedHex (crc16 0x1021 loginBytes0) ++
    crcSwappedHex (crc16 0x1021 (claimKeyBuffer (crc16 0x1021 loginBytes0)))

/-- A device that reports Off on the first status poll and On on every
later one, and whose control send succeeds. -/
def bRetry : ControlBehavior :=
  { sendResult := none,
    pollResult := fun n =>
      .ok { state := if n = 0 then DeviceState.Off else DeviceState.On,
            power_consumption := 0 } }

/-! ### Lemmas about the hex primitives -/

theorem natToHexDigit_val {d : Nat} (h : d < 16) : hexDigitVal (natToHexDigit d) = some d := by
  interval_cases d <;> rfl

theorem natToHexDigit_inj {d e : Nat} (hd : d < 16) (he : e < 16)
    (h : natToHexDigit d = natToHexDigit e) : d = e := by
  have := natToHexDigit_val hd
  rw [h, natToHexDigit_val he] at this
  exact (Option.some.injEq _ _).mp this.symm

theorem hexDigitVal_lt {c : Char} {d : Nat} (h : hexDigitVal c = some d) : d < 16 := by
  unfold hexDigitVal at h
  split_ifs at h <;> cases h <;> omega

theorem byteToHex_inj {a b : Nat} (ha : a < 256) (hb : b < 256)
    (h : byteToHex a = byteToHex b) : a = b := by
  simp only [byteToHex, List.cons.injEq, and_true] at h
  have h1 := natToHexDigit_inj (by omega) (by omega) h.1
  have h2 := natToHexDigit_inj (by omega) (by omega) h.2
  omega

theorem hexEncode_nil : hexEncode [] = [] := rfl

theorem hexEncode_cons (b : Nat) (bs : List Nat) :
    hexEncode (b :: bs) = byteToHex b ++ hexEncode bs := by
  simp [hexEncode]

theorem hexEncode_append (a b : List Nat) :
    hexEncode (a ++ b) = hexEncode a ++ hexEncode b := by
  simp [hexEncode]

theorem hexEncode_length (bs : List Nat) : (hexEncode bs).length = 2 * bs.length := by
  induction bs with
  | nil => rfl
  | cons b bs ih => simp [hexEncode_cons, byteToHex, ih]; omega

theorem hexEncode_drop (k : Nat) (bs : List Nat) :
    (hexEncode bs).drop (2 * k) = hexEncode (bs.drop k) := by
  induction k generalizing bs with
  | zero => simp
  | succ k ih =>
    cases bs with
    | nil => simp [hexEncode_nil]
    | cons b bs =>
      have : 2 * (k + 1) = (2 * k) + 1 + 1 := by omega
      simp only [hexEncode_cons, byteToHex, List.cons_append, List.nil_append, this,
        List.drop_succ_cons, List.drop_drop]
      simpa using ih bs

theorem hexEncode_take (k : Nat) (bs : List Nat) :
    (hexEncode bs).take (2 * k) = hexEncode (bs.take k) := by
  induction k generalizing bs with
  | zero => simp [hexEncode_nil]
  | succ k ih =>
    cases bs with
    | nil => simp [hexEncode_nil]
    | cons b bs =>
      have : 2 * (k + 1) = (2 * k) + 1 + 1 := by omega
      simp only [hexEncode_cons, byteToHex, List.cons_append, List.nil_append, this,
        List.take_succ_cons, hexEncode_cons]
      simpa [byteToHex] using ih bs

theorem slice_hexEncode (bs : List Nat) (i j : Nat) :
    slice (hexEncode bs) (2 * i) (2 * j) = hexEncode (slice bs i j) := by
  have h : 2 * j - 2 * i = 2 * (j - i) := by omega
  simp only [slice, h, hexEncode_drop, hexEncode_take]

theorem slice_length {α : Type} (l : List α) (i j : Nat) (h : j ≤ l.length) :
    (slice l i j).length = j - i := by
  simp only [slice, List.length_take, List.length_drop]
  omega

theorem hexDecode_byteToHex_cons {b : Nat} (hb : b < 256) (rest : List Char) :
    hexDecode (byteToHex b ++ rest) = (hexDecode rest).map (b :: ·) := by
  have h1 : b / 16 < 16 := by omega
  have h2 : b % 16 < 16 := by omega
  simp only [byteToHex, List.cons_append, List.nil_append, hexDecode,
    natToHexDigit_val h1, natToHexDigit_val h2]
  have : 16 * (b / 16) + b % 16 = b := by omega
  cases hd : hexDecode rest <;> simp [this, hd]

theorem hexDecode_hexEncode {bs : List Nat} (h : ∀ b ∈ bs, b < 256) :
    hexDecode (hexEncode bs) = some bs := by
  induction bs with
  | nil => rfl
  | cons b bs ih =>
    rw [hexEncode_cons, hexDecode_byteToHex_cons (h b (by simp)),
      ih (fun x hx => h x (by simp [hx]))]
    rfl

theorem hexDecode_append {a : List Char} {xs : List Nat} (h : hexDecode a = some xs)
    (b : List Char) : hexDecode (a ++ b) = (hexDecode b).map (xs ++ ·) := by
  induction a using hexDecode.induct generalizing xs with
  | case1 =>
    simp only [hexDecode] at h
    cases h
    cases hd : hexDecode b <;> simp [hd]
  | case2 c => simp [hexDecode] at h
  | case3 c1 c2 rest hc1 => simp [hexDecode, hc1] at h
  | case4 c1 c2 rest l hc1 hc2 => simp [hexDecode, hc1, hc2] at h
  | case5 c1 c2 rest l hc1 l2 hc2 hrest ih => simp [hexDecode, hc1, hc2, hrest] at h
  | case6 c1 c2 rest l hc1 l2 hc2 bs hrest ih =>
    simp only [hexDecode, hc1, hc2, hrest] at h
    cases h
    simp only [List.cons_append, hexDecode, hc1, hc2]
    cases hd : hexDecode b <;> simp [ih hrest, hd]

theorem hexDecode_lt {a : List Char} {xs : List Nat} (h : hexDecode a = some xs) :
    ∀ x ∈ xs, x < 256 := by
  induction a using hexDecode.induct generalizing xs with
  | case1 =>
    simp only [hexDecode] at h
    cases h
    simp
  | case2 c => simp [hexDecode] at h
  | case3 c1 c2 rest hc1 => simp [hexDecode, hc1] at h
  | case4 c1 c2 rest l hc1 hc2 => simp [hexDecode, hc1, hc2] at h
  | case5 c1 c2 rest l hc1 l2 hc2 hrest ih => simp [hexDecode, hc1, hc2, hrest] at h
  | case6 c1 c2 rest l hc1 l2 hc2 bs hrest ih =>
    have hl : l < 16 := hexDigitVal_lt hc1
    have hl2 : l2 < 16 := hexDigitVal_lt hc2
    simp only [hexDecode, hc1, hc2, hrest] at h
    cases h
    intro x hx
    rcases List.mem_cons.mp hx with h' | h'
    · omega
    · exact ih hrest x h'

theorem hexDecode_some_even {a : List Char} {xs : List Nat} (h : hexDecode a = some xs) :
    a.length = 2 * xs.length := by
  induction a using hexDecode.induct generalizing xs with
  | case1 =>
    simp only [hexDecode] at h
    cases h
    rfl
  | case2 c => simp [hexDecode] at h
  | case3 c1 c2 rest hc1 => simp [hexDecode, hc1] at h
  | case4 c1 c2 rest l hc1 hc2 => simp [hexDecode, hc1, hc2] at h
  | case5 c1 c2 rest l hc1 l2 hc2 hrest ih => simp [hexDecode, hc1, hc2, hrest] at h
  | case6 c1 c2 rest l hc1 l2 hc2 bs hrest ih =>
    simp only [hexDecode, hc1, hc2, hrest] at h
    cases h
    simp only [List.length_cons, ih hrest]
    omega

theorem hexDecode_of_odd {a : List Char} (h : ¬ Even a.length) : hexDecode a = none := by
  cases hd : hexDecode a with
  | none => rfl
  | some xs => exact absurd ⟨xs.length, by have := hexDecode_some_even hd; omega⟩ h

theorem hexDecode_of_badChar {a : List Char} {c : Char} (hc : c ∈ a)
    (h : hexDigitVal c = none) : hexDecode a = none := by
  induction a using hexDecode.induct with
  | case1 => simp at hc
  | case2 c' => rfl
  | case3 c1 c2 rest hc1 => simp [hexDecode, hc1]
  | case4 c1 c2 rest l hc1 hc2 => simp [hexDecode, hc1, hc2]
  | case5 c1 c2 rest l hc1 l2 hc2 hrest ih => simp [hexDecode, hc1, hc2, hrest]
  | case6 c1 c2 rest l hc1 l2 hc2 bs hrest ih =>
    rcases List.mem_cons.mp hc with rfl | hm
    · rw [h] at hc1; cases hc1
    · rcases List.mem_cons.mp hm with rfl | hm'
      · rw [h] at hc2; cases hc2
      · rw [ih hm'] at hrest; cases hrest

theorem hexCharsVal_byteToHex {b : Nat} (hb : b < 256) (acc : Nat) (rest : List Char) :
    hexCharsVal acc (byteToHex b ++ rest) = hexCharsVal (256 * acc + b) rest := by
  have h1 : b / 16 < 16 := by omega
  have h2 : b % 16 < 16 := by omega
  simp only [byteToHex, List.cons_append, List.nil_append, hexCharsVal,
    natToHexDigit_val h1, natToHexDigit_val h2]
  have : 16 * (16 * acc + b / 16) + b % 16 = 256 * acc + b := by omega
  rw [this]
  rfl

theorem hexCharsVal_nil (acc : Nat) : hexCharsVal acc [] = some acc := rfl

theorem hexStrToNat?_byteToHex1 {b : Nat} (hb : b < 256) :
    hexStrToNat? (byteToHex b) = some b := by
  have e := hexCharsVal_byteToHex hb 0 []
  rw [List.append_nil] at e
  rw [hexStrToNat?, if_neg (by simp [byteToHex]), e, hexCharsVal_nil]
  norm_num

theorem hexStrToNat?_byteToHex2 {b1 b0 : Nat} (h1 : b1 < 256) (h0 : b0 < 256) :
    hexStrToNat? (byteToHex b1 ++ byteToHex b0) = some (256 * b1 + b0) := by
  have e1 := hexCharsVal_byteToHex h1 0 (byteToHex b0)
  have e0 := hexCharsVal_byteToHex h0 (256 * 0 + b1) []
  rw [List.append_nil] at e0
  rw [hexStrToNat?, if_neg (by simp [byteToHex]), e1, e0, hexCharsVal_nil]
  norm_num

theorem hexStrToNat?_byteToHex4 {b3 b2 b1 b0 : Nat}
    (h3 : b3 < 256) (h2 : b2 < 256) (h1 : b1 < 256) (h0 : b0 < 256) :
    hexStrToNat? (byteToHex b3 ++ byteToHex b2 ++ byteToHex b1 ++ byteToHex b0) =
      some (((b3 * 256 + b2) * 256 + b1) * 256 + b0) := by
  have e3 := hexCharsVal_byteToHex h3 0 (byteToHex b2 ++ (byteToHex b1 ++ byteToHex b0))
  have e2 := hexCharsVal_byteToHex h2 (256 * 0 + b3) (byteToHex b1 ++ byteToHex b0)
  have e1 := hexCharsVal_byteToHex h1 (256 * (256 * 0 + b3) + b2) (byteToHex b0)
  have e0 := hexCharsVal_byteToHex h0 (256 * (256 * (256 * 0 + b3) + b2) + b1) []
  rw [List.append_nil] at e0
  rw [hexStrToNat?, if_neg (by simp [byteToHex]), List.append_assoc, List.append_assoc,
    e3, e2, e1, e0, hexCharsVal_nil]
  congr 1
  omega

/-! ### Lemmas about the CRC and the signer -/

theorem crc16Round_lt (r : Nat) : crc16Round r < 65536 := by
  unfold crc16Round
  split <;> exact Nat.mod_lt _ (by norm_num)

theorem crc16Byte_lt (r b : Nat) : crc16Byte r b < 65536 := by
  unfold crc16Byte
  rw [show (8 : Nat) = Nat.succ 7 from rfl, Function.iterate_succ_apply']
  exact crc16Round_lt _

theorem crc16_lt {init : Nat} (h : init < 65536) (bs : List Nat) : crc16 init bs < 65536 := by
  induction bs generalizing init with
  | nil => exact h
  | cons b bs ih => exact ih (crc16Byte_lt init b)

theorem crcSwappedHex_eq (n : Nat) :
    crcSwappedHex n = byteToHex (n % 256) ++ byteToHex (n / 256 % 256) := by
  simp [crcSwappedHex, hexEncode, byteToHex, slice]

theorem crcHexClaimSwapped_eq_code (n : Nat) : crcHexClaimSwapped n = crcSwappedHex n := by
  simp [crcHexClaimSwapped, crcHexBE, crcSwappedHex_eq, byteToHex, slice]

theorem signKeyHex_decode (n : Nat) :
    hexDecode (signKeyHex n) = some (claimKeyBuffer n) := by
  have h30 : hexDecode (List.replicate 32 ['3', '0']).flatten =
      some (List.replicate 32 0x30) := by decide
  rw [signKeyHex, crcSwappedHex_eq, List.append_assoc,
    hexDecode_byteToHex_cons (Nat.mod_lt _ (by norm_num)),
    hexDecode_byteToHex_cons (Nat.mod_lt _ (by norm_num)), h30]
  rfl

/-- Characterization of a successful sign_packet run, with the appended
segments written through the code-side swap. -/
theorem sign_packet_eq {p : List Char} {bs : List Nat} (h : hexDecode p = some bs) :
    sign_packet p = some (p ++ crcSwappedHex (crc16 0x1021 bs) ++
      crcSwappedHex (crc16 0x1021 (claimKeyBuffer (crc16 0x1021 bs)))) := by
  simp only [sign_packet, h, signKeyHex_decode]

theorem mem_crcHexClaimSwapped_isSome {n : Nat} {c : Char}
    (hc : c ∈ crcHexClaimSwapped n) : (hexDigitVal c).isSome := by
  simp only [crcHexClaimSwapped, crcHexBE, byteToHex, slice, List.cons_append, List.nil_append,
    List.drop, List.take, List.mem_append, List.mem_cons, List.not_mem_nil, or_false] at hc
  rcases hc with rfl | rfl | rfl | rfl <;> rw [natToHexDigit_val (by omega)] <;> rfl

/-! ### C1 -/

/-- C1 (amended in two places: sign_packet appends exactly 8 hex
characters, 4 bytes — each swapped CRC rendering is itself 4 hex
characters — and the key buffer consisting of the 2-byte swapped
packet-CRC segment followed by 32 ASCII-zero bytes is 34 bytes long, not
33).  For every even-length hex payload, sign_packet appends the payload
CRC-16 (polynomial 0x1021, initial register 0x1021) rendered as 4
big-endian hex characters and byte-swapped (hex[2..4] ++ hex[0..2]),
then the same CRC, swapped the same way, computed over the key buffer;
the result is payload ++ swapped_packet_crc ++ swapped_key_crc. -/
theorem sign_packet_double_crc (payload : List Char) (bs : List Nat)
    (h : hexDecode payload = some bs) :
    sign_packet payload = some (payload ++ crcHexClaimSwapped (crc16 0x1021 bs) ++
      crcHexClaimSwapped (crc16 0x1021 (claimKeyBuffer (crc16 0x1021 bs)))) ∧
    (claimKeyBuffer (crc16 0x1021 bs)).length = 34 ∧
    (crcHexClaimSwapped (crc16 0x1021 bs) ++
      crcHexClaimSwapped (crc16 0x1021 (claimKeyBuffer (crc16 0x1021 bs)))).length = 8 ∧
    ∀ c ∈ crcHexClaimSwapped (crc16 0x1021 bs) ++
      crcHexClaimSwapped (crc16 0x1021 (claimKeyBuffer (crc16 0x1021 bs))),
      (hexDigitVal c).isSome := by
  refine ⟨?_, ?_, ?_, ?_⟩
  · rw [sign_packet_eq h, crcHexClaimSwapped_eq_code, crcHexClaimSwapped_eq_code]
  · simp [claimKeyBuffer]
  · simp [crcHexClaimSwapped, crcHexBE, byteToHex, slice]
  · intro c hc
    rcases List.mem_append.mp hc with h' | h' <;> exact mem_crcHexClaimSwapped_isSome h'

set_option maxRecDepth 4096 in
/-- C1 counterexample: at the concrete 4-character payload "fef0",
sign_packet returns 12 characters — it appended 8 hex characters, not the
exactly 4 the claim states — and the buffer the key CRC is computed over
(the decoded key_hex of sign_packet) has 34 bytes, not 33. -/
theorem sign_packet_key_buffer_not_33 :
    (sign_packet "fef0".data).map List.length ≠ some 8 ∧
    (sign_packet "fef0".data).map List.length = some 12 ∧
    (hexDecode (signKeyHex (crc16 0x1021 [0xfe, 0xf0]))).map List.length ≠ some 33 ∧
    (hexDecode (signKeyHex (crc16 0x1021 [0xfe, 0xf0]))).map List.length = some 34 := by
  decide

/-- C1 witness: the characterization instantiated at the payload "fef0". -/
theorem sign_packet_double_crc_witness :
    hexDecode "fef0".data = some [0xfe, 0xf0] ∧
    sign_packet "fef0".data = some ("fef0".data ++ crcHexClaimSwapped (crc16 0x1021 [0xfe, 0xf0]) ++
      crcHexClaimSwapped (crc16 0x1021 (claimKeyBuffer (crc16 0x1021 [0xfe, 0xf0])))) :=
  ⟨by decide, (sign_packet_double_crc "fef0".data [0xfe, 0xf0] (by decide)).1⟩

/-! ### C7 -/

theorem flatten_replicate_pair_length (k : Nat) :
    ((List.replicate k ['0', '0']).flatten).length = 2 * k := by
  induction k with
  | zero => rfl
  | succ k ih =>
    simp only [List.replicate_succ, List.flatten_cons, List.length_append, ih, List.length_cons,
      List.length_nil]
    omega

theorem string_to_hex_ok {name : List Nat} (h2 : 2 ≤ name.length) (h32 : name.length ≤ 32) :
    string_to_hexadecimal_device_name name =
      .ok (hexEncode name ++ (List.replicate (32 - name.length) ['0', '0']).flatten) := by
  have hcond : ¬ (name.length < 2 ∨ name.length > 32) := by omega
  simp only [string_to_hexadecimal_device_name, if_neg hcond, hexEncode_length]
  rw [show (64 - 2 * name.length) / 2 = 32 - name.length by omega]

theorem string_to_hex_err {name : List Nat} (h : name.length < 2 ∨ 32 < name.length) :
    string_to_hexadecimal_device_name name = .error (invalidNameLengthMsg name.length) := by
  have hcond : name.length < 2 ∨ name.length > 32 := h
  simp only [string_to_hexadecimal_device_name, if_pos hcond]

/-- C7: name encoding succeeds exactly for UTF-8 byte lengths within
2..=32, and then produces the hex encoding of the name bytes right-padded
with "00" pairs to exactly 64 hex characters; outside that range it
signals InvalidNameLength. -/
theorem device_name_encoding_spec (name : List Nat) :
    (2 ≤ name.length → name.length ≤ 32 →
      string_to_hexadecimal_device_name name =
        .ok (hexEncode name ++ (List.replicate (32 - name.length) ['0', '0']).flatten) ∧
      (hexEncode name ++ (List.replicate (32 - name.length) ['0', '0']).flatten).length = 64) ∧
    (name.length < 2 ∨ 32 < name.length →
      string_to_hexadecimal_device_name name = .error (invalidNameLengthMsg name.length)) := by
  constructor
  · intro h2 h32
    refine ⟨string_to_hex_ok h2 h32, ?_⟩
    simp only [List.length_append, hexEncode_length, flatten_replicate_pair_length]
    omega
  · exact string_to_hex_err

/-- C7 witness: a 2-byte name encodes to 64 characters, a 33-byte name is
rejected. -/
theorem device_name_encoding_spec_witness :
    string_to_hexadecimal_device_name [97, 98] =
      .ok (hexEncode [97, 98] ++ (List.replicate 30 ['0', '0']).flatten) ∧
    string_to_hexadecimal_device_name (List.replicate 33 97) =
      .error (invalidNameLengthMsg 33) := by
  constructor
  · have h := ((device_name_encoding_spec [97, 98]).1 (by decide) (by decide)).1
    simpa using h
  · have h := (device_name_encoding_spec (List.replicate 33 97)).2 (by simp)
    simpa using h

/-! ### C8 -/

set_option maxRecDepth 4096 in
theorem hexDecode_login0 : hexDecode (build_login_packet ts0) = some loginBytes0 := by
  decide

theorem sign_login0 : sign_packet (build_login_packet ts0) = some signedLogin0 :=
  sign_packet_eq hexDecode_login0

theorem login_run_short {timestamp : List Char} {response : List Nat} {signed : List Char}
    (hsign : sign_packet (build_login_packet timestamp) = some signed)
    (h : response.length < 20) :
    login_run timestamp response =
      ([IOEvent.writeHex signed, IOEvent.readBytes response.length], .err loginTooShortMsg) := by
  unfold login_run
  rw [hsign]
  simp [h]

theorem login_run_ok {timestamp : List Char} {response : List Nat} {signed : List Char}
    (hsign : sign_packet (build_login_packet timestamp) = some signed)
    (h : 20 ≤ response.length) :
    login_run timestamp response =
      ([IOEvent.writeHex signed, IOEvent.readBytes response.length],
       .ok timestamp (hexEncode (slice response 16 20))) := by
  unfold login_run
  rw [hsign]
  simp [Nat.not_lt.mpr h]

/-- C8: a login response shorter than 20 bytes makes the operation fail
with the LoginTooShort error; a response of at least 20 bytes makes login
succeed with session id the hex encoding of response bytes 16..20. -/
theorem login_response_spec (timestamp : List Char) (response : List Nat) (signed : List Char)
    (hsign : sign_packet (build_login_packet timestamp) = some signed) :
    (response.length < 20 →
      login_run timestamp response =
        ([IOEvent.writeHex signed, IOEvent.readBytes response.length], .err loginTooShortMsg)) ∧
    (20 ≤ response.length →
      login_run timestamp response =
        ([IOEvent.writeHex signed, IOEvent.readBytes response.length],
         .ok timestamp (hexEncode (slice response 16 20)))) :=
  ⟨fun h => login_run_short hsign h, fun h => login_run_ok hsign h⟩

/-- C8 witness: instantiated at the all-zero timestamp, with a 20-byte
response (success) and a 1-byte response (LoginTooShort). -/
theorem login_response_spec_witness :
    login_run ts0 (List.replicate 20 5) =
      ([IOEvent.writeHex signedLogin0, IOEvent.readBytes 20],
       .ok ts0 (hexEncode (slice (List.replicate 20 5) 16 20))) ∧
    login_run ts0 [0] =
      ([IOEvent.writeHex signedLogin0, IOEvent.readBytes 1], .err loginTooShortMsg) := by
  constructor
  · have h := (login_response_spec ts0 (List.replicate 20 5) signedLogin0 sign_login0).2
      (by decide)
    simpa using h
  · have h := (login_response_spec ts0 [0] signedLogin0 sign_login0).1 (by decide)
    simpa using h

/-! ### C2 -/

theorem turn_on_run_counts (b : ControlBehavior) :
    sendCount (turn_on_run b).1 = 1 ∧ pollCount (turn_on_run b).1 ≤ 2 := by
  unfold turn_on_run
  cases hs : b.sendResult with
  | some e => simp [sendCount, pollCount]
  | none =>
    cases h0 : b.pollResult 0 with
    | error e0 => simp [sendCount, pollCount]
    | ok s0 =>
      by_cases h : s0.state = DeviceState.On
      · simp [h, sendCount, pollCount]
      · cases h1 : b.pollResult 1 with
        | error e1 => simp [h, sendCount, pollCount]
        | ok s1 =>
          by_cases h2 : s1.state = DeviceState.On <;>
            simp [h, h2, sendCount, pollCount]

theorem turn_off_run_counts (b : ControlBehavior) :
    sendCount (turn_off_run b).1 = 1 ∧ pollCount (turn_off_run b).1 ≤ 2 := by
  unfold turn_off_run
  cases hs : b.sendResult with
  | some e => simp [sendCount, pollCount]
  | none =>
    cases h0 : b.pollResult 0 with
    | error e0 => simp [sendCount, pollCount]
    | ok s0 =>
      by_cases h : s0.state = DeviceState.Off
      · simp [h, sendCount, pollCount]
      · cases h1 : b.pollResult 1 with
        | error e1 => simp [h, sendCount, pollCount]
        | ok s1 =>
          by_cases h2 : s1.state = DeviceState.Off <;>
            simp [h, h2, sendCount, pollCount]

theorem turn_on_run_cases (b : ControlBehavior) (hsend : b.sendResult = none)
    {s : DeviceStatus} (h0 : b.pollResult 0 = .ok s) :
    (s.state = DeviceState.On →
      turn_on_run b =
        ([CtrlEvent.sendCmd '1', CtrlEvent.sleepMs 500, CtrlEvent.statusPoll], .ok)) ∧
    (s.state ≠ DeviceState.On → ∀ s2, b.pollResult 1 = .ok s2 →
      turn_on_run b =
        ([CtrlEvent.sendCmd '1', CtrlEvent.sleepMs 500, CtrlEvent.statusPoll,
          CtrlEvent.sleepMs 1000, CtrlEvent.statusPoll],
         if s2.state = DeviceState.On then .ok else .err turnOnNotConfirmedMsg)) := by
  unfold turn_on_run
  constructor
  · intro h
    simp [hsend, h0, h]
  · intro h s2 h1
    by_cases h2 : s2.state = DeviceState.On <;> simp [hsend, h0, h, h1, h2]

theorem turn_off_run_cases (b : ControlBehavior) (hsend : b.sendResult = none)
    {s : DeviceStatus} (h0 : b.pollResult 0 = .ok s) :
    (s.state = DeviceState.Off →
      turn_off_run b =
        ([CtrlEvent.sendCmd '0', CtrlEvent.sleepMs 500, CtrlEvent.statusPoll], .ok)) ∧
    (s.state ≠ DeviceState.Off → ∀ s2, b.pollResult 1 = .ok s2 →
      turn_off_run b =
        ([CtrlEvent.sendCmd '0', CtrlEvent.sleepMs 500, CtrlEvent.statusPoll,
          CtrlEvent.sleepMs 1000, CtrlEvent.statusPoll],
         if s2.state = DeviceState.Off then .ok else .err turnOffNotConfirmedMsg)) := by
  unfold turn_off_run
  constructor
  · intro h
    simp [hsend, h0, h]
  · intro h s2 h1
    by_cases h2 : s2.state = DeviceState.Off <;> simp [hsend, h0, h, h1, h2]

/-- C2: for every device behaviour, turn_on (and symmetrically turn_off)
sends the control command once and performs at most two status polls;
when the first poll (taken after the 500 ms settle delay) reports the
desired state the operation succeeds without a second poll; otherwise a
single further poll is taken after an extra 1000 ms delay, succeeding
when it matches and failing with the CommandNotConfirmed error when it
does not; a third poll never happens. -/
theorem turn_on_off_two_poll_convergence (b : ControlBehavior) :
    (sendCount (turn_on_run b).1 = 1 ∧ pollCount (turn_on_run b).1 ≤ 2 ∧
     sendCount (turn_off_run b).1 = 1 ∧ pollCount (turn_off_run b).1 ≤ 2) ∧
    (b.sendResult = none → ∀ s, b.pollResult 0 = .ok s →
      ((s.state = DeviceState.On →
          turn_on_run b =
            ([CtrlEvent.sendCmd '1', CtrlEvent.sleepMs 500, CtrlEvent.statusPoll], .ok)) ∧
       (s.state ≠ DeviceState.On → ∀ s2, b.pollResult 1 = .ok s2 →
          turn_on_run b =
            ([CtrlEvent.sendCmd '1', CtrlEvent.sleepMs 500, CtrlEvent.statusPoll,
              CtrlEvent.sleepMs 1000, CtrlEvent.statusPoll],
             if s2.state = DeviceState.On then .ok else .err turnOnNotConfirmedMsg)))) ∧
    (b.sendResult = none → ∀ s, b.pollResult 0 = .ok s →
      ((s.state = DeviceState.Off →
          turn_off_run b =
            ([CtrlEvent.sendCmd '0', CtrlEvent.sleepMs 500, CtrlEvent.statusPoll], .ok)) ∧
       (s.state ≠ DeviceState.Off → ∀ s2, b.pollResult 1 = .ok s2 →
          turn_off_run b =
            ([CtrlEvent.sendCmd '0', CtrlEvent.sleepMs 500, CtrlEvent.statusPoll,
              CtrlEvent.sleepMs 1000, CtrlEvent.statusPoll],
             if s2.state = DeviceState.Off then .ok else .err turnOffNotConfirmedMsg)))) := by
  refine ⟨?_, ?_, ?_⟩
  · obtain ⟨a1, a2⟩ := turn_on_run_counts b
    obtain ⟨a3, a4⟩ := turn_off_run_counts b
    exact ⟨a1, a2, a3, a4⟩
  · intro hsend s h0
    exact turn_on_run_cases b hsend h0
  · intro hsend s h0
    exact turn_off_run_cases b hsend h0

/-- C2 witness: a device that reports Off on the first poll and On on the
second makes turn_on succeed after exactly two polls. -/
theorem turn_on_off_two_poll_convergence_witness :
    turn_on_run bRetry =
      ([CtrlEvent.sendCmd '1', CtrlEvent.sleepMs 500, CtrlEvent.statusPoll,
        CtrlEvent.sleepMs 1000, CtrlEvent.statusPoll], .ok) ∧
    pollCount (turn_on_run bRetry).1 = 2 := by
  have h := (((turn_on_off_two_poll_convergence bRetry).2.1 rfl
      { state := DeviceState.Off, power_consumption := 0 } rfl).2 (by decide))
      { state := DeviceState.On, power_consumption := 0 } rfl
  simp only [if_pos rfl] at h
  exact ⟨h, by rw [h]; decide⟩

/-! ### Lemmas about the discovery decoder -/

theorem slice_subset {α : Type} {l : List α} {i j : Nat} : slice l i j ⊆ l := by
  intro x hx
  simp only [slice] at hx
  exact List.mem_of_mem_drop (List.mem_of_mem_take hx)

theorem slice_one {l : List Nat} {i : Nat} (h : i + 1 ≤ l.length) :
    slice l i (i + 1) = [l.getD i 0] := by
  have h0 : i < l.length := by omega
  simp only [slice, show i + 1 - i = 1 by omega]
  rw [List.drop_eq_getElem_cons h0, List.getD_eq_getElem _ _ h0]
  rfl

theorem slice_four {l : List Nat} {i : Nat} (h : i + 4 ≤ l.length) :
    slice l i (i + 4) =
      [l.getD i 0, l.getD (i + 1) 0, l.getD (i + 2) 0, l.getD (i + 3) 0] := by
  have h0 : i < l.length := by omega
  have h1 : i + 1 < l.length := by omega
  have h2 : i + 2 < l.length := by omega
  have h3 : i + 3 < l.length := by omega
  simp only [slice, show i + 4 - i = 4 by omega]
  rw [List.drop_eq_getElem_cons h0, List.drop_eq_getElem_cons h1, List.drop_eq_getElem_cons h2,
    List.drop_eq_getElem_cons h3, List.getD_eq_getElem _ _ h0, List.getD_eq_getElem _ _ h1,
    List.getD_eq_getElem _ _ h2, List.getD_eq_getElem _ _ h3]
  rfl

theorem slice_six {l : List Nat} {i : Nat} (h : i + 6 ≤ l.length) :
    slice l i (i + 6) =
      [l.getD i 0, l.getD (i + 1) 0, l.getD (i + 2) 0, l.getD (i + 3) 0,
       l.getD (i + 4) 0, l.getD (i + 5) 0] := by
  have h0 : i < l.length := by omega
  have h1 : i + 1 < l.length := by omega
  have h2 : i + 2 < l.length := by omega
  have h3 : i + 3 < l.length := by omega
  have h4 : i + 4 < l.length := by omega
  have h5 : i + 5 < l.length := by omega
  simp only [slice, show i + 6 - i = 6 by omega]
  rw [List.drop_eq_getElem_cons h0, List.drop_eq_getElem_cons h1, List.drop_eq_getElem_cons h2,
    List.drop_eq_getElem_cons h3, List.drop_eq_getElem_cons h4, List.drop_eq_getElem_cons h5,
    List.getD_eq_getElem _ _ h0, List.getD_eq_getElem _ _ h1, List.getD_eq_getElem _ _ h2,
    List.getD_eq_getElem _ _ h3, List.getD_eq_getElem _ _ h4, List.getD_eq_getElem _ _ h5]
  rfl

theorem div_mul_add {m a b : Nat} (hm : 0 < m) (hb : b < m) : (m * a + b) / m = a := by
  rw [Nat.mul_add_div hm, Nat.div_eq_of_lt hb, Nat.add_zero]

theorem u32_octet0 (b0 b1 b2 b3 : Nat) (h0 : b0 < 256) :
    (((b3 * 256 + b2) * 256 + b1) * 256 + b0) % 256 = b0 := by
  omega

theorem u32_octet1 (b0 b1 b2 b3 : Nat) (h0 : b0 < 256) (h1 : b1 < 256) :
    (((b3 * 256 + b2) * 256 + b1) * 256 + b0) / 256 % 256 = b1 := by
  rw [show ((b3 * 256 + b2) * 256 + b1) * 256 + b0 =
    256 * ((b3 * 256 + b2) * 256 + b1) + b0 by ring, div_mul_add (by norm_num) h0]
  omega

theorem u32_octet2 (b0 b1 b2 b3 : Nat) (h0 : b0 < 256) (h1 : b1 < 256) (h2 : b2 < 256) :
    (((b3 * 256 + b2) * 256 + b1) * 256 + b0) / 65536 % 256 = b2 := by
  rw [show ((b3 * 256 + b2) * 256 + b1) * 256 + b0 =
    65536 * (b3 * 256 + b2) + (b1 * 256 + b0) by ring,
    div_mul_add (by norm_num) (by omega)]
  omega

theorem u32_octet3 (b0 b1 b2 b3 : Nat) (h0 : b0 < 256) (h1 : b1 < 256) (h2 : b2 < 256)
    (h3 : b3 < 256) :
    (((b3 * 256 + b2) * 256 + b1) * 256 + b0) / 16777216 % 256 = b3 := by
  rw [show ((b3 * 256 + b2) * 256 + b1) * 256 + b0 =
    16777216 * b3 + ((b2 * 256 + b1) * 256 + b0) by ring,
    div_mul_add (by norm_num) (by omega)]
  omega

theorem hexEncode_pair_eq_iff {a b c d : Nat} (ha : a < 256) (hb : b < 256)
    (hc : c < 256) (hd : d < 256) :
    hexEncode [a, b] = hexEncode [c, d] ↔ a = c ∧ b = d := by
  constructor
  · intro h
    simp only [hexEncode_cons, hexEncode_nil, List.append_nil] at h
    obtain ⟨h1, h2⟩ := List.append_inj h (by simp [byteToHex])
    exact ⟨byteToHex_inj ha hc h1, byteToHex_inj hb hd h2⟩
  · rintro ⟨rfl, rfl⟩
    rfl

theorem from_discovery_none_of_shape {data : List Nat}
    (h : data.length ≠ 165 ∨ data.take 2 ≠ [0xfe, 0xf0]) :
    from_discovery_packet data = none := by
  simp only [from_discovery_packet, if_pos h]

theorem from_discovery_some_shape {data : List Nat} {dev : SwitcherDevice}
    (h : from_discovery_packet data = some dev) :
    data.length = 165 ∧ data.take 2 = [0xfe, 0xf0] := by
  by_contra hc
  rw [from_discovery_none_of_shape (by tauto)] at h
  cases h

theorem from_discovery_none_of_type {data : List Nat}
    (h165 : data.length = 165) (hb : ∀ x ∈ data, x < 256)
    (htype : slice data 74 76 ≠ [0x01, 0xa8]) :
    from_discovery_packet data = none := by
  by_cases hmagic : data.take 2 = [0xfe, 0xf0]
  case neg => exact from_discovery_none_of_shape (Or.inr hmagic)
  have hlen2 : (slice data 74 76).length = 2 := slice_length data 74 76 (by omega)
  obtain ⟨a, b, hab⟩ := List.length_eq_two.mp hlen2
  have ha : a < 256 := hb a (slice_subset (hab ▸ List.mem_cons_self a [b]))
  have hbb : b < 256 := hb b (slice_subset (hab ▸ List.mem_cons_of_mem a (List.mem_cons_self b [])))
  have hcond : hexEncode (slice data 74 76) ≠ "01a8".data := by
    rw [hab, show ("01a8".data : List Char) = hexEncode [0x01, 0xa8] from rfl]
    intro heq
    obtain ⟨rfl, rfl⟩ := (hexEncode_pair_eq_iff ha hbb (by norm_num) (by norm_num)).mp heq
    exact htype hab
  have hshape : ¬ (data.length ≠ 165 ∨ data.take 2 ≠ [0xfe, 0xf0]) := by simp [h165, hmagic]
  simp only [from_discovery_packet, if_neg hshape, if_pos hcond]

theorem from_discovery_packet_accept {data : List Nat}
    (h165 : data.length = 165) (hb : ∀ x ∈ data, x < 256)
    (hmagic : data.take 2 = [0xfe, 0xf0]) (htype : slice data 74 76 = [0x01, 0xa8]) :
    from_discovery_packet data = some
      { device_id := hexEncode (slice data 18 21),
        device_key := hexEncode (slice data 40 41),
        ip_address := [data.getD 76 0, data.getD 77 0, data.getD 78 0, data.getD 79 0],
        mac_address := [data.getD 80 0, data.getD 81 0, data.getD 82 0,
          data.getD 83 0, data.getD 84 0, data.getD 85 0],
        name := (slice data 42 74).take ((slice data 42 74).findIdx (fun b => b == 0)),
        device_type := deviceTypeLabel,
        state := if data.getD 133 0 = 1 then DeviceState.On else DeviceState.Off,
        power_consumption := 256 * data.getD 136 0 + data.getD 135 0 } := by
  have hbd : ∀ i, data.getD i 0 < 256 := by
    intro i
    by_cases h : i < data.length
    · rw [List.getD_eq_getElem _ _ h]
      exact hb _ (List.getElem_mem h)
    · rw [List.getD_eq_default _ _ (by omega)]
      norm_num
  have hshape : ¬ (data.length ≠ 165 ∨ data.take 2 ≠ [0xfe, 0xf0]) := by simp [h165, hmagic]
  have hlen330 : (hexEncode data).length = 330 := by rw [hexEncode_length, h165]
  have htypehex : hexEncode (slice data 74 76) = "01a8".data := by rw [htype]; rfl
  have hip : slice data 76 80 =
      [data.getD 76 0, data.getD 77 0, data.getD 78 0, data.getD 79 0] := by
    have := slice_four (l := data) (i := 76) (by omega)
    norm_num at this ⊢
    exact this
  have hmac : slice data 80 86 =
      [data.getD 80 0, data.getD 81 0, data.getD 82 0, data.getD 83 0,
       data.getD 84 0, data.getD 85 0] := by
    have := slice_six (l := data) (i := 80) (by omega)
    norm_num at this ⊢
    exact this
  have hst : slice data 133 134 = [data.getD 133 0] := by
    have := slice_one (l := data) (i := 133) (by omega)
    norm_num at this ⊢
    exact this
  have hpw : slice data 135 139 =
      [data.getD 135 0, data.getD 136 0, data.getD 137 0, data.getD 138 0] := by
    have := slice_four (l := data) (i := 135) (by omega)
    norm_num at this ⊢
    exact this
  have e1 : slice (hexEncode data) 152 160 = hexEncode (slice data 76 80) := by
    have := slice_hexEncode data 76 80
    norm_num at this
    exact this
  have e2 : slice (hexEncode data) 160 172 = hexEncode (slice data 80 86) := by
    have := slice_hexEncode data 80 86
    norm_num at this
    exact this
  have e3 : slice (hexEncode data) 266 268 = hexEncode (slice data 133 134) := by
    have := slice_hexEncode data 133 134
    norm_num at this
    exact this
  have e4 : slice (hexEncode data) 270 278 = hexEncode (slice data 135 139) := by
    have := slice_hexEncode data 135 139
    norm_num at this
    exact this
  have eip : hexStrToNat?
      (slice (hexEncode [data.getD 76 0, data.getD 77 0, data.getD 78 0, data.getD 79 0]) 6 8 ++
       slice (hexEncode [data.getD 76 0, data.getD 77 0, data.getD 78 0, data.getD 79 0]) 4 6 ++
       slice (hexEncode [data.getD 76 0, data.getD 77 0, data.getD 78 0, data.getD 79 0]) 2 4 ++
       slice (hexEncode [data.getD 76 0, data.getD 77 0, data.getD 78 0, data.getD 79 0]) 0 2) =
      some (((data.getD 79 0 * 256 + data.getD 78 0) * 256 + data.getD 77 0) * 256 +
        data.getD 76 0) :=
    hexStrToNat?_byteToHex4 (hbd 79) (hbd 78) (hbd 77) (hbd 76)
  have em0 : hexStrToNat? (slice (hexEncode [data.getD 80 0, data.getD 81 0, data.getD 82 0,
      data.getD 83 0, data.getD 84 0, data.getD 85 0]) 0 2) = some (data.getD 80 0) :=
    hexStrToNat?_byteToHex1 (hbd 80)
  have em1 : hexStrToNat? (slice (hexEncode [data.getD 80 0, data.getD 81 0, data.getD 82 0,
      data.getD 83 0, data.getD 84 0, data.getD 85 0]) 2 4) = some (data.getD 81 0) :=
    hexStrToNat?_byteToHex1 (hbd 81)
  have em2 : hexStrToNat? (slice (hexEncode [data.getD 80 0, data.getD 81 0, data.getD 82 0,
      data.getD 83 0, data.getD 84 0, data.getD 85 0]) 4 6) = some (data.getD 82 0) :=
    hexStrToNat?_byteToHex1 (hbd 82)
  have em3 : hexStrToNat? (slice (hexEncode [data.getD 80 0, data.getD 81 0, data.getD 82 0,
      data.getD 83 0, data.getD 84 0, data.getD 85 0]) 6 8) = some (data.getD 83 0) :=
    hexStrToNat?_byteToHex1 (hbd 83)
  have em4 : hexStrToNat? (slice (hexEncode [data.getD 80 0, data.getD 81 0, data.getD 82 0,
      data.getD 83 0, data.getD 84 0, data.getD 85 0]) 8 10) = some (data.getD 84 0) :=
    hexStrToNat?_byteToHex1 (hbd 84)
  have em5 : hexStrToNat? (slice (hexEncode [data.getD 80 0, data.getD 81 0, data.getD 82 0,
      data.getD 83 0, data.getD 84 0, data.getD 85 0]) 10 12) = some (data.getD 85 0) :=
    hexStrToNat?_byteToHex1 (hbd 85)
  have hp2 : hexStrToNat?
      (slice (hexEncode [data.getD 135 0, data.getD 136 0, data.getD 137 0, data.getD 138 0]) 2 4 ++
       slice (hexEncode [data.getD 135 0, data.getD 136 0, data.getD 137 0, data.getD 138 0]) 0 2) =
      some (256 * data.getD 136 0 + data.getD 135 0) :=
    hexStrToNat?_byteToHex2 (hbd 136) (hbd 135)
  have hsingle : hexEncode [data.getD 133 0] = byteToHex (data.getD 133 0) := by
    simp [hexEncode]
  have hstate_eq : (if byteToHex (data.getD 133 0) = "01".data then DeviceState.On
      else if byteToHex (data.getD 133 0) = "00".data then DeviceState.Off
      else DeviceState.Off) =
      (if data.getD 133 0 = 1 then DeviceState.On else DeviceState.Off) := by
    by_cases hx : data.getD 133 0 = 1
    · rw [hx]
      rfl
    · rw [if_neg hx, if_neg (fun heq => hx (byteToHex_inj (hbd 133) (by norm_num)
        (heq.trans rfl)))]
      exact ite_self _
  have hc2 : ¬ (hexEncode (slice data 74 76) ≠ "01a8".data) := by
    rw [htype]
    intro hh
    exact hh rfl
  have hc3 : ¬ ((330 : Nat) < 160) := by norm_num
  have hc4 : ¬ ((330 : Nat) < 278) := by norm_num
  have o0 := u32_octet0 (data.getD 76 0) (data.getD 77 0) (data.getD 78 0) (data.getD 79 0)
    (hbd 76)
  have o1 := u32_octet1 (data.getD 76 0) (data.getD 77 0) (data.getD 78 0) (data.getD 79 0)
    (hbd 76) (hbd 77)
  have o2 := u32_octet2 (data.getD 76 0) (data.getD 77 0) (data.getD 78 0) (data.getD 79 0)
    (hbd 76) (hbd 77) (hbd 78)
  have o3 := u32_octet3 (data.getD 76 0) (data.getD 77 0) (data.getD 78 0) (data.getD 79 0)
    (hbd 76) (hbd 77) (hbd 78) (hbd 79)
  simp only [from_discovery_packet, if_neg hshape, if_neg hc2, hlen330, if_neg hc3, if_neg hc4,
    e1, e2, e3, e4, hip, hmac, hst, hpw, hsingle, eip, em0, em1, em2, em3, em4, em5, hp2,
    Option.getD_some, hstate_eq,
    show (2 : Nat) ^ 8 = 256 by norm_num, show (2 : Nat) ^ 16 = 65536 by norm_num,
    show (2 : Nat) ^ 24 = 16777216 by norm_num, o0, o1, o2, o3]

theorem getD_lt {data : List Nat} (hb : ∀ x ∈ data, x < 256) (i : Nat) :
    data.getD i 0 < 256 := by
  by_cases h : i < data.length
  · rw [List.getD_eq_getElem _ _ h]
    exact hb _ (List.getElem_mem h)
  · rw [List.getD_eq_default _ _ (by omega)]
    norm_num

set_option maxRecDepth 8192 in
theorem pktA_decodes : from_discovery_packet pktA = some devA := by
  decide

/-! ### C3 -/

/-- C3: the discovery decoder returns no record (a silent none, never a
panic or error — the embedding is a total function into Option) for every
payload whose length is not 165 or whose first two bytes are not
0xFE 0xF0, and for every 165-byte correct-magic payload whose type-code
bytes 74..76 are not 0x01 0xA8, however well-formed the other fields. -/
theorem from_discovery_packet_rejects (data : List Nat) :
    (data.length ≠ 165 ∨ data.take 2 ≠ [0xfe, 0xf0] → from_discovery_packet data = none) ∧
    (data.length = 165 → (∀ x ∈ data, x < 256) → slice data 74 76 ≠ [0x01, 0xa8] →
      from_discovery_packet data = none) :=
  ⟨from_discovery_none_of_shape,
   fun h165 hb htype => from_discovery_none_of_type h165 hb htype⟩

set_option maxRecDepth 8192 in
/-- C3 witness: a truncated payload and a payload with type code 00 00
are both rejected. -/
theorem from_discovery_packet_rejects_witness :
    from_discovery_packet (pktA.take 100) = none ∧ from_discovery_packet pktB = none :=
  ⟨(from_discovery_packet_rejects (pktA.take 100)).1 (by decide),
   (from_discovery_packet_rejects pktB).2 (by decide) (by decide) (by decide)⟩

/-! ### C5 -/

/-- C5: for every accepted discovery payload (over genuine bytes), the
decoded ip_address octets are exactly what the claim describes: reverse
the 4-byte group at hex offsets 152..160 of the hex encoding, read the
reversed group as a 32-bit value, and emit its bytes in ascending
significance, low byte first. -/
theorem from_discovery_packet_ip_spec (data : List Nat) (dev : SwitcherDevice)
    (hb : ∀ x ∈ data, x < 256) (h : from_discovery_packet data = some dev) :
    claimIpOctets data = some dev.ip_address := by
  obtain ⟨h165, hmagic⟩ := from_discovery_some_shape h
  by_cases htype : slice data 74 76 = [0x01, 0xa8]
  case neg =>
    rw [from_discovery_none_of_type h165 hb htype] at h
    cases h
  rw [from_discovery_packet_accept h165 hb hmagic htype] at h
  cases h
  have e1 : slice (hexEncode data) 152 160 = hexEncode (slice data 76 80) := by
    have := slice_hexEncode data 76 80
    norm_num at this
    exact this
  have hip : slice data 76 80 =
      [data.getD 76 0, data.getD 77 0, data.getD 78 0, data.getD 79 0] := by
    have := slice_four (l := data) (i := 76) (by omega)
    norm_num at this ⊢
    exact this
  have hdec : hexDecode (hexEncode
      [data.getD 76 0, data.getD 77 0, data.getD 78 0, data.getD 79 0]) =
      some [data.getD 76 0, data.getD 77 0, data.getD 78 0, data.getD 79 0] :=
    hexDecode_hexEncode (by
      intro x hx
      simp only [List.mem_cons, List.not_mem_nil, or_false] at hx
      rcases hx with rfl | rfl | rfl | rfl <;> exact getD_lt hb _)
  have hfold : List.foldl (fun acc b => 256 * acc + b) 0
      ([data.getD 76 0, data.getD 77 0, data.getD 78 0, data.getD 79 0].reverse) =
      ((data.getD 79 0 * 256 + data.getD 78 0) * 256 + data.getD 77 0) * 256 +
        data.getD 76 0 := by
    simp only [List.reverse_cons, List.reverse_nil, List.nil_append, List.cons_append,
      List.foldl_cons, List.foldl_nil]
    ring
  have o0 := u32_octet0 (data.getD 76 0) (data.getD 77 0) (data.getD 78 0) (data.getD 79 0)
    (getD_lt hb 76)
  have o1 := u32_octet1 (data.getD 76 0) (data.getD 77 0) (data.getD 78 0) (data.getD 79 0)
    (getD_lt hb 76) (getD_lt hb 77)
  have o2 := u32_octet2 (data.getD 76 0) (data.getD 77 0) (data.getD 78 0) (data.getD 79 0)
    (getD_lt hb 76) (getD_lt hb 77) (getD_lt hb 78)
  have o3 := u32_octet3 (data.getD 76 0) (data.getD 77 0) (data.getD 78 0) (data.getD 79 0)
    (getD_lt hb 76) (getD_lt hb 77) (getD_lt hb 78) (getD_lt hb 79)
  simp only [claimIpOctets, e1, hip, hdec, hfold,
    show (2 : Nat) ^ 8 = 256 by norm_num, show (2 : Nat) ^ 16 = 65536 by norm_num,
    show (2 : Nat) ^ 24 = 16777216 by norm_num, o0, o1, o2, o3]

set_option maxRecDepth 8192 in
/-- C5 witness: the accepted fixture packet decodes with ip octets
10.0.0.24, matching the claim-side computation. -/
theorem from_discovery_packet_ip_spec_witness :
    (∀ x ∈ pktA, x < 256) ∧ claimIpOctets pktA = some devA.ip_address :=
  ⟨by decide, from_discovery_packet_ip_spec pktA devA (by decide) pktA_decodes⟩

/-! ### C6 -/

/-- C6: the two state-decoding paths are asymmetric.  Discovery maps
state byte 0x01 (at hex offset 266..268) to On and every other value,
0x00 included, to Off — never Unknown; get_status on a response of at
least 50 bytes holding a byte at offset 75 maps 0x01 to On, 0x00 to Off
and anything else to Unknown, and Unknown is reachable there. -/
theorem state_decoding_asymmetry :
    (∀ (data : List Nat) (dev : SwitcherDevice), (∀ x ∈ data, x < 256) →
      from_discovery_packet data = some dev →
      dev.state = (if data.getD 133 0 = 1 then DeviceState.On else DeviceState.Off) ∧
      dev.state ≠ DeviceState.Unknown) ∧
    (∀ response : List Nat, 50 ≤ response.length → 75 < response.length →
      decode_status_response response = .ok
        { state := if response.getD 75 0 = 1 then DeviceState.On
            else if response.getD 75 0 = 0 then DeviceState.Off else DeviceState.Unknown,
          power_consumption :=
            if response.length > 78 then response.getD 77 0 + 256 * response.getD 78 0
            else 0 }) ∧
    decode_status_response (List.replicate 75 0 ++ [2, 0, 0]) =
      .ok { state := DeviceState.Unknown, power_consumption := 0 } := by
  refine ⟨?_, ?_, by rfl⟩
  · intro data dev hb h
    obtain ⟨h165, hmagic⟩ := from_discovery_some_shape h
    by_cases htype : slice data 74 76 = [0x01, 0xa8]
    case neg =>
      rw [from_discovery_none_of_type h165 hb htype] at h
      cases h
    rw [from_discovery_packet_accept h165 hb hmagic htype] at h
    cases h
    refine ⟨rfl, ?_⟩
    by_cases hx : data.getD 133 0 = 1
    · rw [if_pos hx]
      intro hc
      cases hc
    · rw [if_neg hx]
      intro hc
      cases hc
  · intro response h50 h75
    have hn50 : ¬ (response.length < 50) := by omega
    cases hn : response.getD 75 0 with
    | zero =>
      simp only [decode_status_response, if_neg hn50, if_pos h75, hn]
      rfl
    | succ n =>
      cases n with
      | zero =>
        simp only [decode_status_response, if_neg hn50, if_pos h75, hn]
        rfl
      | succ m =>
        simp only [decode_status_response, if_neg hn50, if_pos h75, hn]
        rfl

set_option maxRecDepth 8192 in
/-- C6 witness: the fixture packet (state byte 0x01) decodes to On, and a
79-byte status response carrying 0x01 at offset 75 decodes to On. -/
theorem state_decoding_asymmetry_witness :
    devA.state = (if pktA.getD 133 0 = 1 then DeviceState.On else DeviceState.Off) ∧
    decode_status_response (List.replicate 79 1) = .ok
      { state := if (List.replicate 79 1).getD 75 0 = 1 then DeviceState.On
          else if (List.replicate 79 1).getD 75 0 = 0 then DeviceState.Off
          else DeviceState.Unknown,
        power_consumption :=
          if (List.replicate 79 1).length > 78 then
            (List.replicate 79 1).getD 77 0 + 256 * (List.replicate 79 1).getD 78 0
          else 0 } :=
  ⟨(state_decoding_asymmetry.1 pktA devA (by decide) pktA_decodes).1,
   state_decoding_asymmetry.2.1 (List.replicate 79 1) (by decide) (by decide)⟩

/-! ### C9 -/

theorem lookupId_nil (id : List Char) : lookupId [] id = none := rfl

theorem lookupId_cons (k : List Char) (w : SwitcherDevice)
    (rest : List (List Char × SwitcherDevice)) (id : List Char) :
    lookupId ((k, w) :: rest) id = if k = id then some w else lookupId rest id := rfl

theorem lookupId_append_some {a : List (List Char × SwitcherDevice)} {id : List Char}
    {v : SwitcherDevice} (h : lookupId a id = some v)
    (b : List (List Char × SwitcherDevice)) : lookupId (a ++ b) id = some v := by
  induction a with
  | nil => exact Option.noConfusion h
  | cons kv a ih =>
    obtain ⟨k, w⟩ := kv
    by_cases hk : k = id
    · simpa [lookupId_cons, hk] using h
    · rw [List.cons_append]
      rw [lookupId_cons, if_neg hk] at h ⊢
      exact ih h

theorem lookupId_append_none {a : List (List Char × SwitcherDevice)} {id : List Char}
    (h : lookupId a id = none) (b : List (List Char × SwitcherDevice)) :
    lookupId (a ++ b) id = lookupId b id := by
  induction a with
  | nil => rfl
  | cons kv a ih =>
    obtain ⟨k, w⟩ := kv
    by_cases hk : k = id
    · simp [lookupId_cons, hk] at h
    · rw [List.cons_append]
      rw [lookupId_cons, if_neg hk] at h ⊢
      exact ih h

theorem lookupId_eq_none_iff {l : List (List Char × SwitcherDevice)} {id : List Char} :
    lookupId l id = none ↔ id ∉ l.map Prod.fst := by
  induction l with
  | nil => simp [lookupId_nil]
  | cons kv l ih =>
    obtain ⟨k, w⟩ := kv
    by_cases hk : k = id
    · simp [lookupId_cons, hk]
    · simp [lookupId_cons, hk, ih, Ne.symm hk]

theorem discoverStep_none {acc : List (List Char × SwitcherDevice)} {p : List Nat}
    (hd : from_discovery_packet p = none) : discoverStep acc p = acc := by
  simp [discoverStep, hd]

theorem discoverStep_some {acc : List (List Char × SwitcherDevice)} {p : List Nat}
    {d : SwitcherDevice} (hd : from_discovery_packet p = some d) :
    discoverStep acc p =
      if (lookupId acc d.device_id).isSome then acc else acc ++ [(d.device_id, d)] := by
  simp [discoverStep, hd]

theorem discover_fold_lookup_some {acc : List (List Char × SwitcherDevice)} {id : List Char}
    {v : SwitcherDevice} (h : lookupId acc id = some v) (ps : List (List Nat)) :
    lookupId (ps.foldl discoverStep acc) id = some v := by
  induction ps generalizing acc with
  | nil => exact h
  | cons p ps ih =>
    rw [List.foldl_cons]
    cases hd : from_discovery_packet p with
    | none =>
      rw [discoverStep_none hd]
      exact ih h
    | some d =>
      rw [discoverStep_some hd]
      by_cases hc : (lookupId acc d.device_id).isSome
      · rw [if_pos hc]
        exact ih h
      · rw [if_neg hc]
        exact ih (lookupId_append_some h _)

theorem discover_fold_lookup_none {acc : List (List Char × SwitcherDevice)} {id : List Char}
    (h : lookupId acc id = none) (ps : List (List Nat)) :
    lookupId (ps.foldl discoverStep acc) id =
      (ps.filterMap from_discovery_packet).find? (fun d => decide (d.device_id = id)) := by
  induction ps generalizing acc with
  | nil => simpa using h
  | cons p ps ih =>
    rw [List.foldl_cons, List.filterMap_cons]
    cases hd : from_discovery_packet p with
    | none =>
      rw [discoverStep_none hd]
      exact ih h
    | some d =>
      rw [discoverStep_some hd]
      by_cases hid : d.device_id = id
      · subst hid
        rw [if_neg (by simp [h]), List.find?_cons]
        have hone : lookupId (acc ++ [(d.device_id, d)]) d.device_id = some d := by
          rw [lookupId_append_none h, lookupId_cons, if_pos rfl]
        rw [discover_fold_lookup_some hone ps]
        simp
      · by_cases hc : (lookupId acc d.device_id).isSome
        · rw [if_pos hc, ih h, List.find?_cons]
          simp [hid]
        · rw [if_neg hc]
          have h2 : lookupId (acc ++ [(d.device_id, d)]) id = none := by
            rw [lookupId_append_none h, lookupId_cons, if_neg hid]
            rfl
          rw [ih h2, List.find?_cons]
          simp [hid]

theorem discover_fold_keys_nodup {acc : List (List Char × SwitcherDevice)}
    (h : (acc.map Prod.fst).Nodup) (ps : List (List Nat)) :
    (((ps.foldl discoverStep acc)).map Prod.fst).Nodup := by
  induction ps generalizing acc with
  | nil => exact h
  | cons p ps ih =>
    rw [List.foldl_cons]
    cases hd : from_discovery_packet p with
    | none =>
      rw [discoverStep_none hd]
      exact ih h
    | some d =>
      rw [discoverStep_some hd]
      by_cases hc : (lookupId acc d.device_id).isSome
      · rw [if_pos hc]
        exact ih h
      · rw [if_neg hc]
        apply ih
        rw [List.map_append]
        refine List.nodup_append.mpr ⟨h, List.nodup_singleton _, ?_⟩
        intro x hx hx2
        simp only [List.map_cons, List.map_nil, List.mem_singleton] at hx2
        subst hx2
        exact lookupId_eq_none_iff.mp (Option.not_isSome_iff_eq_none.mp hc) hx

/-- C9: within one listen window the collected record set holds exactly
one record per distinct device id (its key list has no duplicates), and
the record stored under an id is the one decoded from the first accepted
payload bearing that id — a later payload with an already-seen id never
overwrites it, and payloads with two distinct ids give two records. -/
theorem discover_dedup_first_seen (payloads : List (List Nat)) :
    ((discover_network_fold payloads).map Prod.fst).Nodup ∧
    ∀ id, lookupId (discover_network_fold payloads) id =
      (payloads.filterMap from_discovery_packet).find?
        (fun d => decide (d.device_id = id)) :=
  ⟨discover_fold_keys_nodup (by simp) payloads,
   fun id => discover_fold_lookup_none (lookupId_nil id) payloads⟩

/-! ### C10 -/

theorem sign_packet_eq_none_iff (p : List Char) :
    sign_packet p = none ↔ hexDecode p = none := by
  constructor
  · intro h
    cases hd : hexDecode p with
    | none => rfl
    | some bs =>
      rw [sign_packet_eq hd] at h
      cases h
  · intro h
    simp [sign_packet, h]

theorem build_control_packet_length (session_id timestamp device_id : List Char)
    (command : Char) :
    (build_control_packet session_id timestamp device_id command).length =
      156 + session_id.length + timestamp.length + device_id.length := by
  simp only [build_control_packet, List.length_append, List.length_replicate,
    List.length_cons, List.length_nil,
    show ("fef05d0002320102".data).length = 16 from rfl,
    show ("340001000000000000000000".data).length = 24 from rfl,
    show ("00000000000000000000f0fe".data).length = 24 from rfl,
    show ("000106000".data).length = 9 from rfl,
    show ("00".data).length = 2 from rfl,
    show ("00000000".data).length = 8 from rfl]
  omega

theorem build_get_state_packet_length (session_id timestamp device_id : List Char) :
    (build_get_state_packet session_id timestamp device_id).length =
      66 + session_id.length + timestamp.length + device_id.length := by
  simp only [build_get_state_packet, List.length_append,
    show ("fef0300002320103".data).length = 16 from rfl,
    show ("340001000000000000000000".data).length = 24 from rfl,
    show ("00000000000000000000f0fe".data).length = 24 from rfl,
    show ("00".data).length = 2 from rfl]
  omega

theorem string_to_hex_ok_length {name : List Nat} {s : List Char}
    (h : string_to_hexadecimal_device_name name = .ok s) : s.length = 64 := by
  by_cases hl : name.length < 2 ∨ 32 < name.length
  · rw [string_to_hex_err hl] at h
    cases h
  · push_neg at hl
    rw [string_to_hex_ok hl.1 hl.2] at h
    cases h
    simp only [List.length_append, hexEncode_length, flatten_replicate_pair_length]
    omega

theorem build_control_packet_bad {session_id timestamp device_id : List Char} {command : Char}
    (hs : Even session_id.length) (ht : Even timestamp.length)
    (hbad : BadDeviceId device_id) :
    sign_packet (build_control_packet session_id timestamp device_id command) = none := by
  rw [sign_packet_eq_none_iff]
  rcases hbad with ⟨c, hc, hval⟩ | hodd
  · exact hexDecode_of_badChar (by simp [build_control_packet, hc]) hval
  · apply hexDecode_of_odd
    rw [build_control_packet_length, Nat.even_iff] at *
    omega

theorem build_get_state_packet_bad {session_id timestamp device_id : List Char}
    (hs : Even session_id.length) (ht : Even timestamp.length)
    (hbad : BadDeviceId device_id) :
    sign_packet (build_get_state_packet session_id timestamp device_id) = none := by
  rw [sign_packet_eq_none_iff]
  rcases hbad with ⟨c, hc, hval⟩ | hodd
  · exact hexDecode_of_badChar (by simp [build_get_state_packet, hc]) hval
  · apply hexDecode_of_odd
    rw [build_get_state_packet_length, Nat.even_iff] at *
    omega

theorem build_set_name_packet_bad {session_id timestamp device_id packet : List Char}
    {new_name : List Nat}
    (hs : Even session_id.length) (ht : Even timestamp.length)
    (hbad : BadDeviceId device_id)
    (hok : build_set_name_packet session_id timestamp device_id new_name = .ok packet) :
    sign_packet packet = none := by
  rw [sign_packet_eq_none_iff]
  cases hsn : string_to_hexadecimal_device_name new_name with
  | error e =>
    rw [build_set_name_packet, hsn] at hok
    cases hok
  | ok nh =>
    have hnh : nh.length = 64 := string_to_hex_ok_length hsn
    rw [build_set_name_packet, hsn] at hok
    cases hok
    rcases hbad with ⟨c, hc, hval⟩ | hodd
    · exact hexDecode_of_badChar (by simp [hc]) hval
    · apply hexDecode_of_odd
      simp only [List.length_append, List.length_replicate, hnh,
        show ("fef0740002320202".data).length = 16 from rfl,
        show ("340001000000000000000000".data).length = 24 from rfl,
        show ("00000000000000000000f0fe".data).length = 24 from rfl,
        show ("00".data).length = 2 from rfl]
      rw [Nat.even_iff] at *
      omega

theorem login_packet_decodes {timestamp : List Char} {tsb : List Nat}
    (hts : hexDecode timestamp = some tsb) :
    ∃ bs, hexDecode (build_login_packet timestamp) = some bs := by
  have d1 : hexDecode ("fef052000232a10000000000340001000000000000000000".data) =
      some [0xfe, 0xf0, 0x52, 0x00, 0x02, 0x32, 0xa1, 0x00, 0x00, 0x00, 0x00, 0x00,
        0x34, 0x00, 0x01, 0x00, 0x00, 0x00, 0x00, 0x00, 0x00, 0x00, 0x00, 0x00] := by
    decide
  have d2 : hexDecode ("00000000000000000000f0fe00".data ++
      (List.replicate 72 '0' ++ "00".data)) =
      some (List.replicate 10 0 ++ [0xf0, 0xfe, 0x00] ++ List.replicate 37 0) := by
    decide
  rw [build_login_packet, List.append_assoc, List.append_assoc, List.append_assoc,
    hexDecode_append d1, hexDecode_append hts, d2]
  exact ⟨_, rfl⟩

theorem set_device_name_run_panics {timestamp device_id : List Char} {tsb : List Nat}
    {b : NameNetBehavior} {new_name : List Nat}
    (hts : hexDecode timestamp = some tsb) (hbad : BadDeviceId device_id)
    (hlogin : 20 ≤ b.loginResponse.length)
    (h2 : 2 ≤ new_name.length) (h32 : new_name.length ≤ 32) :
    (set_device_name_run timestamp device_id b new_name).2 = OpOutcome.panicked := by
  obtain ⟨bs, hlp⟩ := login_packet_decodes hts
  have hsign := sign_packet_eq hlp
  have hsid : Even (hexEncode (slice b.loginResponse 16 20)).length := by
    rw [hexEncode_length]
    exact even_two_mul _
  have hteven : Even timestamp.length := by
    rw [hexDecode_some_even hts]
    exact even_two_mul _
  have hbs : build_set_name_packet (hexEncode (slice b.loginResponse 16 20)) timestamp
      device_id new_name =
      .ok ("fef0740002320202".data ++ hexEncode (slice b.loginResponse 16 20) ++
        "340001000000000000000000".data ++ timestamp ++
        "00000000000000000000f0fe".data ++ device_id ++ List.replicate 72 '0' ++
        "00".data ++ (hexEncode new_name ++
          (List.replicate (32 - new_name.length) ['0', '0']).flatten)) := by
    rw [build_set_name_packet, string_to_hex_ok h2 h32]
  have hbadsign := build_set_name_packet_bad hsid hteven hbad hbs
  unfold set_device_name_run
  rw [login_run_ok hsign hlogin]
  simp only [hbs, hbadsign]

/-- C10: sign_packet decodes its input with an unchecked unwrap and so
panics (modelled as none) exactly on the payloads hex decoding rejects; a
device id with a non-hex character, or one whose odd length makes the
packet hex odd-length, therefore makes signing panic for the control,
status and rename packets it is interpolated into — the packets turn_on,
turn_off, get_status and set_device_name sign — and the fully modelled
set_device_name run ends in the panic outcome for such a device id. -/
theorem sign_packet_panics_on_invalid_device_id :
    (∀ p : List Char, sign_packet p = none ↔ hexDecode p = none) ∧
    (∀ (session_id timestamp device_id : List Char) (command : Char),
      Even session_id.length → Even timestamp.length → BadDeviceId device_id →
      sign_packet (build_control_packet session_id timestamp device_id command) = none ∧
      sign_packet (build_get_state_packet session_id timestamp device_id) = none) ∧
    (∀ (session_id timestamp device_id packet : List Char) (new_name : List Nat),
      Even session_id.length → Even timestamp.length → BadDeviceId device_id →
      build_set_name_packet session_id timestamp device_id new_name = .ok packet →
      sign_packet packet = none) ∧
    (∀ (timestamp device_id : List Char) (tsb : List Nat) (b : NameNetBehavior)
      (new_name : List Nat),
      hexDecode timestamp = some tsb → BadDeviceId device_id →
      20 ≤ b.loginResponse.length → 2 ≤ new_name.length → new_name.length ≤ 32 →
      (set_device_name_run timestamp device_id b new_name).2 = OpOutcome.panicked) :=
  ⟨sign_packet_eq_none_iff,
   fun _ _ _ _ hs ht hbad =>
     ⟨build_control_packet_bad hs ht hbad, build_get_state_packet_bad hs ht hbad⟩,
   fun _ _ _ _ _ hs ht hbad hok => build_set_name_packet_bad hs ht hbad hok,
   fun _ _ _ _ _ hts hbad hlogin h2 h32 =>
     set_device_name_run_panics hts hbad hlogin h2 h32⟩

/-- C10 witness: at the device id "99999g" (non-hex character g), with
all-zero session id and timestamp, the control and status packets fail to
sign, and a full rename run with a valid name panics. -/
theorem sign_packet_panics_on_invalid_device_id_witness :
    sign_packet (build_control_packet ts0 ts0 devBad '1') = none ∧
    sign_packet (build_get_state_packet ts0 ts0 devBad) = none ∧
    (set_device_name_run ts0 devBad b0 [97, 98]).2 = OpOutcome.panicked := by
  refine ⟨?_, ?_, ?_⟩
  · exact (sign_packet_panics_on_invalid_device_id.2.1 ts0 ts0 devBad '1'
      (by decide) (by decide) (Or.inl ⟨'g', by decide, rfl⟩)).1
  · exact (sign_packet_panics_on_invalid_device_id.2.1 ts0 ts0 devBad '1'
      (by decide) (by decide) (Or.inl ⟨'g', by decide, rfl⟩)).2
  · exact sign_packet_panics_on_invalid_device_id.2.2.2 ts0 devBad [0, 0, 0, 0] b0 [97, 98]
      (by decide) (Or.inl ⟨'g', by decide, rfl⟩) (by decide) (by decide) (by decide)

/-! ### C4 -/

/-- C4 counterexample: with the 1-byte name "A", timestamp ts0 and a
20-byte login response, set_device_name does signal InvalidNameLength —
but its trace is not empty and contains the connect event (and the login
write), so I/O does happen before the validation failure, contrary to the
claim. -/
theorem set_device_name_does_io_before_validation :
    (set_device_name_run ts0 dev0 b0 [65]).2 = .err (invalidNameLengthMsg 1) ∧
    (set_device_name_run ts0 dev0 b0 [65]).1 ≠ [] ∧
    IOEvent.connect ∈ (set_device_name_run ts0 dev0 b0 [65]).1 := by
  have hrun : set_device_name_run ts0 dev0 b0 [65] =
      ([IOEvent.connect, IOEvent.writeHex signedLogin0, IOEvent.readBytes 20],
       .err (invalidNameLengthMsg 1)) := by
    unfold set_device_name_run
    rw [login_run_ok sign_login0 (by decide)]
    have hb : build_set_name_packet (hexEncode (slice b0.loginResponse 16 20)) ts0 dev0 [65] =
        .error (invalidNameLengthMsg 1) := by
      rw [build_set_name_packet, string_to_hex_err (Or.inl (by norm_num))]
      rfl
    simp only [hb]
    rw [show b0.loginResponse.length = 20 from rfl]
    rfl
  rw [hrun]
  refine ⟨rfl, by simp, by simp⟩

/-- C4 (amended: for every name whose UTF-8 byte length is less than 2
or greater than 32, the rename operation signals InvalidNameLength, but
only after the connection is opened and the login exchange completes —
the trace holds exactly the connect, the login write and the login read;
no rename-command bytes are ever written). -/
theorem set_device_name_invalid_length_after_login
    (timestamp device_id : List Char) (b : NameNetBehavior) (new_name : List Nat)
    (signed : List Char)
    (hsign : sign_packet (build_login_packet timestamp) = some signed)
    (hlen : new_name.length < 2 ∨ 32 < new_name.length)
    (hlogin : 20 ≤ b.loginResponse.length) :
    set_device_name_run timestamp device_id b new_name =
      ([IOEvent.connect, IOEvent.writeHex signed, IOEvent.readBytes b.loginResponse.length],
       .err (invalidNameLengthMsg new_name.length)) := by
  unfold set_device_name_run
  rw [login_run_ok hsign hlogin]
  have hb : build_set_name_packet (hexEncode (slice b.loginResponse 16 20)) timestamp
      device_id new_name = .error (invalidNameLengthMsg new_name.length) := by
    rw [build_set_name_packet, string_to_hex_err hlen]
  simp only [hb]
  rfl

/-- C4 witness: the amended statement instantiated with a 33-byte name. -/
theorem set_device_name_invalid_length_after_login_witness :
    set_device_name_run ts0 dev0 b0 (List.replicate 33 97) =
      ([IOEvent.connect, IOEvent.writeHex signedLogin0, IOEvent.readBytes 20],
       .err (invalidNameLengthMsg 33)) := by
  have h := set_device_name_invalid_length_after_login ts0 dev0 b0 (List.replicate 33 97)
    signedLogin0 sign_login0 (Or.inr (by simp)) (by decide)
  simpa using h

end Switcher
